import Mathlib

/-!
Shallow embedding of `stustapay/core/service/user.py` (UserService).

The relational store is modelled as explicit lists of rows; each SQL
statement of the source is translated to the corresponding list
operation.  Operations that can raise (`NotFoundException`, pydantic
parse failures, the password-hash type error) return `Except`.
The bcrypt password hasher and the JWT auth service are external
collaborators; they are passed in as function records.
-/

namespace Stustapay

/-- Privilege enum (`stustapay.core.schema.user.Privilege`); the spec lists
`admin`, `cashier`, `finanzorga` as the closed set of capabilities. -/
inductive Privilege
  | admin
  | cashier
  | finanzorga
  deriving DecidableEq, Repr

/-- String value stored in the database for a privilege (`privilege.value`). -/
def Privilege.value : Privilege → String
  | .admin => "admin"
  | .cashier => "cashier"
  | .finanzorga => "finanzorga"

/-- Account type enum (`stustapay.core.schema.account.AccountType`); only
`internal` is used by this service. -/
inductive AccountType
  | internal
  deriving DecidableEq, Repr

/-- String value stored in the database for an account type. -/
def AccountType.value : AccountType → String
  | .internal => "internal"

/-- One row of the `usr` table (the non-key columns). -/
structure UserRow where
  name : String
  description : Option String
  password : Option String
  user_tag_id : Option Nat
  transport_account_id : Option Nat
  cashier_account_id : Option Nat
  deriving DecidableEq, Repr

/-- A row of the `usr_with_privileges` view: the `usr` row joined with the
aggregated privilege set of that user. -/
structure UsrWithPrivilegesRow where
  id : Nat
  name : String
  description : Option String
  password : Option String
  user_tag_id : Option Nat
  transport_account_id : Option Nat
  cashier_account_id : Option Nat
  privileges : List Privilege
  deriving DecidableEq, Repr

/-- Hydrated `User` entity (`stustapay.core.schema.user.User`): the view row
minus the password digest. -/
structure User where
  id : Nat
  name : String
  description : Option String
  privileges : List Privilege
  user_tag_id : Option Nat
  transport_account_id : Option Nat
  cashier_account_id : Option Nat
  deriving DecidableEq, Repr

/-- Row-to-entity hydration, `User.parse_obj(row)`. -/
def User.parse_obj (r : UsrWithPrivilegesRow) : User :=
  ⟨r.id, r.name, r.description, r.privileges, r.user_tag_id,
    r.transport_account_id, r.cashier_account_id⟩

/-- `stustapay.core.schema.user.UserWithoutId`: payload for user creation
and full-replace update. -/
structure UserWithoutId where
  name : String
  description : Option String
  privileges : List Privilege
  user_tag_id : Option Nat
  transport_account_id : Option Nat
  cashier_account_id : Option Nat
  deriving DecidableEq, Repr

/-- Duck-typed use of a `User` where a `UserWithoutId` is expected
(`promote_to_cashier` passes the loaded user to `_update_user`). -/
def User.toUserWithoutId (u : User) : UserWithoutId :=
  ⟨u.name, u.description, u.privileges, u.user_tag_id,
    u.transport_account_id, u.cashier_account_id⟩

/-- `stustapay.core.schema.user.NewUser`: name plus the scanned tag uid. -/
structure NewUser where
  name : String
  user_tag : Nat
  deriving DecidableEq, Repr

/-- Token payload (`UserTokenMetadata`). -/
structure UserTokenMetadata where
  user_id : Nat
  session_id : Nat
  deriving DecidableEq, Repr

/-- Successful login result (`UserLoginSuccess`). -/
structure UserLoginSuccess where
  user : User
  token : String
  deriving DecidableEq, Repr

/-- Errors this service can raise. `notFound` is `NotFoundException`;
`validationError` is a pydantic parse failure on a missing row;
`invalidHash` is the hasher's error on a null stored digest. -/
inductive ServiceError
  | notFound (element_typ : String) (element_id : String)
  | validationError
  | invalidHash
  deriving DecidableEq, Repr

/-- The database state: the tables touched by `UserService`, plus the
next value of each id sequence.  `usr` maps id to row; `usr_privs` holds
(user id, privilege) rows; `user_tag` holds (id, uid) rows; `account`
holds (id, type value, name) rows; `usr_session` holds (id, user id)
rows. -/
structure Db where
  usr : List (Nat × UserRow)
  usr_privs : List (Nat × Privilege)
  user_tag : List (Nat × Nat)
  account : List (Nat × String × String)
  usr_session : List (Nat × Nat)
  next_usr_id : Nat
  next_account_id : Nat
  next_session_id : Nat
  deriving DecidableEq, Repr

/-- Aggregated privileges of a user: `select priv from usr_privs where usr = $1`. -/
def Db.privilegesOf (db : Db) (user_id : Nat) : List Privilege :=
  (db.usr_privs.filter (fun r => r.1 == user_id)).map (fun r => r.2)

/-- Join one `usr` row with its privileges, producing a view row. -/
def Db.hydrateRow (db : Db) (r : Nat × UserRow) : UsrWithPrivilegesRow :=
  ⟨r.1, r.2.name, r.2.description, r.2.password, r.2.user_tag_id,
    r.2.transport_account_id, r.2.cashier_account_id, db.privilegesOf r.1⟩

/-- `select * from usr_with_privileges where id = $1` (first matching row). -/
def Db.selectById (db : Db) (user_id : Nat) : Option UsrWithPrivilegesRow :=
  (db.usr.find? (fun r => r.1 == user_id)).map db.hydrateRow

/-- `select * from usr_with_privileges where user_tag_id = $1`. -/
def Db.selectByTagId (db : Db) (tag_id : Nat) : Option UsrWithPrivilegesRow :=
  (db.usr.find? (fun r => r.2.user_tag_id == some tag_id)).map db.hydrateRow

/-- `select * from usr_with_privileges where name = $1`. -/
def Db.selectByName (db : Db) (username : String) : Option UsrWithPrivilegesRow :=
  (db.usr.find? (fun r => r.2.name == username)).map db.hydrateRow

/-- External password hasher (passlib `CryptContext`, bcrypt). `hash` is
`_hash_password`, `verify` is `_check_password`. -/
structure Hasher where
  hash : String → String
  verify : String → String → Bool

/-- External auth service: token minting and decoding. -/
structure AuthService where
  create_user_access_token : UserTokenMetadata → String
  decode_user_jwt_payload : String → Option UserTokenMetadata

/-- `UserService._create_user`: hash the password only when it is truthy
(non-null and non-empty), insert the `usr` row, insert one `usr_privs` row
per privilege, then re-read the hydrated view. -/
def _create_user (hasher : Hasher) (db : Db) (new_user : UserWithoutId)
    (password : Option String) : Except ServiceError (User × Db) :=
  let hashed_password : Option String :=
    match password with
    | some p => if p = "" then none else some (hasher.hash p)
    | none => none
  let user_id := db.next_usr_id
  let db1 : Db :=
    { db with
      usr := db.usr ++ [(user_id,
        ⟨new_user.name, new_user.description, hashed_password,
          new_user.user_tag_id, new_user.transport_account_id,
          new_user.cashier_account_id⟩)],
      next_usr_id := db.next_usr_id + 1 }
  let db2 : Db :=
    { db1 with
      usr_privs := db1.usr_privs ++ new_user.privileges.map (fun p => (user_id, p)) }
  match db2.selectById user_id with
  | some row => .ok (User.parse_obj row, db2)
  | none => .error .validationError

/-- `UserService.create_user_no_auth` (transaction wrapper around
`_create_user`). -/
def create_user_no_auth (hasher : Hasher) (db : Db) (new_user : UserWithoutId)
    (password : Option String) : Except ServiceError (User × Db) :=
  _create_user hasher db new_user password

/-- `UserService.create_user` (admin-guarded wrapper around `_create_user`;
the privilege guard is the outer layer's concern and is modelled as already
passed). -/
def create_user (hasher : Hasher) (db : Db) (new_user : UserWithoutId)
    (password : Option String) : Except ServiceError (User × Db) :=
  _create_user hasher db new_user password

/-- `UserService._get_user`: read the hydrated view row, raising
`NotFoundException` when it is absent. -/
def _get_user (db : Db) (user_id : Nat) : Except ServiceError User :=
  match db.selectById user_id with
  | none => .error (.notFound "user" (toString user_id))
  | some row => .ok (User.parse_obj row)

/-- `UserService.get_user` (admin-guarded wrapper around `_get_user`). -/
def get_user (db : Db) (user_id : Nat) : Except ServiceError User :=
  _get_user db user_id

/-- `UserService._update_user`: full-replace update of the `usr` row
(`NotFoundException` when no row matches), then delete-all-then-reinsert of
the privilege rows, then re-read.  The stored password digest is not
touched by the update statement. -/
def _update_user (db : Db) (user_id : Nat) (user : UserWithoutId) :
    Except ServiceError (User × Db) :=
  if db.usr.any (fun r => r.1 == user_id) then
    let db1 : Db :=
      { db with
        usr := db.usr.map (fun r =>
          if r.1 == user_id then
            (r.1, { r.2 with
              name := user.name, description := user.description,
              user_tag_id := user.user_tag_id,
              transport_account_id := user.transport_account_id,
              cashier_account_id := user.cashier_account_id })
          else r) }
    let db2 : Db :=
      { db1 with
        usr_privs := db1.usr_privs.filter (fun r => !(r.1 == user_id)) ++
          user.privileges.map (fun p => (user_id, p)) }
    (_get_user db2 user_id).map (fun u => (u, db2))
  else
    .error (.notFound "user" (toString user_id))

/-- `UserService.update_user` (admin-guarded wrapper around `_update_user`). -/
def update_user (db : Db) (user_id : Nat) (user : UserWithoutId) :
    Except ServiceError (User × Db) :=
  _update_user db user_id user

/-- `UserService.delete_user`: `delete from usr where id = $1`; the returned
boolean is `result != "DELETE 0"`, i.e. whether any row was removed. -/
def delete_user (db : Db) (user_id : Nat) : Bool × Db :=
  (db.usr.any (fun r => r.1 == user_id),
    { db with usr := db.usr.filter (fun r => !(r.1 == user_id)) })

/-- `UserService.create_user_with_tag`: resolve the tag uid to a tag id
(`NotFoundException` for an unknown uid); return the user already bound to
that tag id unchanged when one exists, ignoring the supplied name;
otherwise create a new user with no privileges bound to the tag id. -/
def create_user_with_tag (hasher : Hasher) (db : Db) (new_user : NewUser) :
    Except ServiceError (User × Db) :=
  match db.user_tag.find? (fun t => t.2 == new_user.user_tag) with
  | none => .error (.notFound "user_tag" (toString new_user.user_tag))
  | some t =>
    match db.selectByTagId t.1 with
    | some existing_user => .ok (User.parse_obj existing_user, db)
    | none =>
      _create_user hasher db
        ⟨new_user.name, none, [], some t.1, none, none⟩ none

/-- `UserService.promote_to_cashier`: load the user (`NotFoundException`
if absent); if `cashier` is already held, return the user unchanged;
otherwise insert an internal cashier account, set it as the user's
`cashier_account_id`, append `cashier`, and persist via `_update_user`. -/
def promote_to_cashier (db : Db) (user_id : Nat) :
    Except ServiceError (User × Db) :=
  match _get_user db user_id with
  | .error e => .error e
  | .ok user =>
    if Privilege.cashier ∈ user.privileges then
      .ok (user, db)
    else
      let account_id := db.next_account_id
      let db1 : Db :=
        { db with
          account := db.account ++
            [(account_id, AccountType.internal.value,
              "Cashier account for " ++ user.name)],
          next_account_id := db.next_account_id + 1 }
      let user1 : User :=
        { user with
          cashier_account_id := some account_id,
          privileges := user.privileges ++ [Privilege.cashier] }
      _update_user db1 user1.id user1.toUserWithoutId

/-- `UserService.promote_to_finanzorga`: same shape as
`promote_to_cashier`, creating a transport (backpack) account as
`transport_account_id` and appending `finanzorga`. -/
def promote_to_finanzorga (db : Db) (user_id : Nat) :
    Except ServiceError (User × Db) :=
  match _get_user db user_id with
  | .error e => .error e
  | .ok user =>
    if Privilege.finanzorga ∈ user.privileges then
      .ok (user, db)
    else
      let account_id := db.next_account_id
      let db1 : Db :=
        { db with
          account := db.account ++
            [(account_id, AccountType.internal.value,
              "Transport account for finanzorga " ++ user.name)],
          next_account_id := db.next_account_id + 1 }
      let user1 : User :=
        { user with
          transport_account_id := some account_id,
          privileges := user.privileges ++ [Privilege.finanzorga] }
      _update_user db1 user1.id user1.toUserWithoutId

/-- `UserService.create_cashier`: `create_user_with_tag` then
`promote_to_cashier`, one composed terminal-authorized step. -/
def create_cashier (hasher : Hasher) (db : Db) (new_user : NewUser) :
    Except ServiceError (User × Db) :=
  match create_user_with_tag hasher db new_user with
  | .error e => .error e
  | .ok (user, db1) => promote_to_cashier db1 user.id

/-- `UserService.create_finanzorga`: `create_user_with_tag`, then
`promote_to_cashier`, then `promote_to_finanzorga`. -/
def create_finanzorga (hasher : Hasher) (db : Db) (new_user : NewUser) :
    Except ServiceError (User × Db) :=
  match create_user_with_tag hasher db new_user with
  | .error e => .error e
  | .ok (user, db1) =>
    match promote_to_cashier db1 user.id with
    | .error e => .error e
    | .ok (user1, db2) => promote_to_finanzorga db2 user1.id

/-- `UserService.link_user_to_cashier_account`:
`update usr set cashier_account_id = $2 where id = $1 returning id`;
true iff a row matched. -/
def link_user_to_cashier_account (db : Db) (user_id : Nat) (account_id : Nat) :
    Bool × Db :=
  (db.usr.any (fun r => r.1 == user_id),
    { db with usr := db.usr.map (fun r =>
        if r.1 == user_id then (r.1, { r.2 with cashier_account_id := some account_id })
        else r) })

/-- `UserService.link_user_to_transport_account`: as above for
`transport_account_id`. -/
def link_user_to_transport_account (db : Db) (user_id : Nat) (account_id : Nat) :
    Bool × Db :=
  (db.usr.any (fun r => r.1 == user_id),
    { db with usr := db.usr.map (fun r =>
        if r.1 == user_id then (r.1, { r.2 with transport_account_id := some account_id })
        else r) })

/-- `UserService.login_user`: look the user up by name (first matching
view row); absent name yields `none`.  The stored digest is then checked:
`_check_password` hands `row["password"]` to passlib, whose `verify`
requires a digest string — a null stored password (tag-only user) is a
raised error, modelled as `.error .invalidHash` (the hasher is an external
collaborator specified only for string digests).  A failed verification
yields `none`; success inserts a session row and mints a token. -/
def login_user (hasher : Hasher) (auth : AuthService) (db : Db)
    (username : String) (password : String) :
    Except ServiceError (Option UserLoginSuccess × Db) :=
  match db.selectByName username with
  | none => .ok (none, db)
  | some row =>
    match row.password with
    | none => .error .invalidHash
    | some digest =>
      if hasher.verify password digest then
        let session_id := db.next_session_id
        let db1 : Db :=
          { db with
            usr_session := db.usr_session ++ [(session_id, row.id)],
            next_session_id := db.next_session_id + 1 }
        let user := User.parse_obj row
        .ok (some ⟨user,
          auth.create_user_access_token ⟨user.id, session_id⟩⟩, db1)
      else
        .ok (none, db)

/-- `UserService.logout_user`: decode the token (`false` on failure),
require the decoded user id to match the current user (`false` on
mismatch), then `delete from usr_session where usr = $1 and id = $2`,
returning whether a row was deleted. -/
def logout_user (auth : AuthService) (db : Db) (current_user : User)
    (token : String) : Bool × Db :=
  match auth.decode_user_jwt_payload token with
  | none => (false, db)
  | some payload =>
    if current_user.id ≠ payload.user_id then
      (false, db)
    else
      (db.usr_session.any (fun s => s.2 == current_user.id && s.1 == payload.session_id),
        { db with usr_session := db.usr_session.filter (fun s =>
            !(s.2 == current_user.id && s.1 == payload.session_id)) })

/-! Helper lemmas about keyed row lists. -/

/-- The key of a row found by key equals the searched key. -/
theorem find?_key_of_eq {α : Type} {l : List (Nat × α)} {k : Nat} {r : Nat × α}
    (h : l.find? (fun x => x.1 == k) = some r) : r.1 = k := by
  have := List.find?_some h
  simpa using this

/-- A keyed SQL `update ... where id = $1` commutes with `find?` by that key. -/
theorem find?_map_update {α : Type} (l : List (Nat × α)) (k : Nat) (f : Nat × α → α) :
    (l.map (fun r => if r.1 == k then (r.1, f r) else r)).find? (fun r => r.1 == k) =
      (l.find? (fun r => r.1 == k)).map (fun r => (r.1, f r)) := by
  induction l with
  | nil => rfl
  | cons a t ih =>
    simp only [List.map_cons]
    by_cases h : a.1 = k
    · rw [if_pos (by simpa using h)]
      rw [List.find?_cons_of_pos _ (by simpa using h),
        List.find?_cons_of_pos _ (by simpa using h)]
      simp
    · rw [if_neg (by simpa using h)]
      rw [List.find?_cons_of_neg _ (by simpa using h),
        List.find?_cons_of_neg _ (by simpa using h)]
      exact ih

/-- Rows surviving `delete ... where usr = $1` never match that key. -/
theorem filter_key_filter_out {α : Type} (t : List (Nat × α)) (k : Nat) :
    (t.filter (fun r => !(r.1 == k))).filter (fun r => r.1 == k) = [] := by
  induction t with
  | nil => rfl
  | cons a t ih =>
    by_cases h : a.1 = k <;> simp [List.filter_cons, h, ih]

/-- Reading back rows inserted for one key yields exactly the inserted values. -/
theorem filter_key_map_pair {α : Type} (ps : List α) (k : Nat) :
    ((ps.map (fun p => (k, p))).filter (fun r => r.1 == k)).map (fun r => r.2) = ps := by
  induction ps with
  | nil => rfl
  | cons p t ih => simp [List.filter_cons, ih]

/-- After delete-all-then-reinsert of one user's privilege rows, the
aggregated privileges of that user are exactly the inserted list. -/
theorem privilegesOf_replace (t : List (Nat × Privilege)) (k : Nat) (ps : List Privilege) :
    ((t.filter (fun r => !(r.1 == k)) ++ ps.map (fun p => (k, p))).filter
        (fun r => r.1 == k)).map (fun r => r.2) = ps := by
  rw [List.filter_append, List.map_append, filter_key_filter_out, filter_key_map_pair]
  simp

/-- The state `_update_user` leaves behind for an existing user id: the
`usr` row rewritten to the supplied fields (password untouched) and the
privilege rows replaced by the supplied list. -/
def dbAfterUpdate (db : Db) (user_id : Nat) (user : UserWithoutId) : Db :=
  { db with
    usr := db.usr.map (fun r =>
      if r.1 == user_id then
        (r.1, { r.2 with
          name := user.name, description := user.description,
          user_tag_id := user.user_tag_id,
          transport_account_id := user.transport_account_id,
          cashier_account_id := user.cashier_account_id })
      else r),
    usr_privs := db.usr_privs.filter (fun r => !(r.1 == user_id)) ++
      user.privileges.map (fun p => (user_id, p)) }

/-- Characterization of `_update_user` on an existing user id: it succeeds,
returning the supplied fields joined with the replaced privilege set, and
leaves the state `dbAfterUpdate`. -/
theorem _update_user_eq (db : Db) (user_id : Nat) (user : UserWithoutId)
    {r : Nat × UserRow} (hfind : db.usr.find? (fun x => x.1 == user_id) = some r) :
    _update_user db user_id user = .ok
      (⟨user_id, user.name, user.description, user.privileges,
        user.user_tag_id, user.transport_account_id, user.cashier_account_id⟩,
       dbAfterUpdate db user_id user) := by
  have hkey : r.1 = user_id := find?_key_of_eq hfind
  have hany : db.usr.any (fun x => x.1 == user_id) = true := by
    rw [List.any_eq_true]
    exact ⟨r, List.mem_of_find?_eq_some hfind, by simp [hkey]⟩
  have hsel : (dbAfterUpdate db user_id user).usr.find? (fun x => x.1 == user_id)
      = some (r.1, { r.2 with
          name := user.name, description := user.description,
          user_tag_id := user.user_tag_id,
          transport_account_id := user.transport_account_id,
          cashier_account_id := user.cashier_account_id }) := by
    rw [dbAfterUpdate]
    rw [find?_map_update db.usr user_id (fun x => { x.2 with
      name := user.name, description := user.description,
      user_tag_id := user.user_tag_id,
      transport_account_id := user.transport_account_id,
      cashier_account_id := user.cashier_account_id })]
    rw [hfind]
    rfl
  have hpriv : (dbAfterUpdate db user_id user).privilegesOf user_id = user.privileges := by
    rw [dbAfterUpdate, Db.privilegesOf]
    exact privilegesOf_replace db.usr_privs user_id user.privileges
  rw [_update_user, if_pos hany]
  show (_get_user (dbAfterUpdate db user_id user) user_id).map
      (fun u => (u, dbAfterUpdate db user_id user)) = _
  have hpriv2 : (dbAfterUpdate db user_id user).privilegesOf r.1 = user.privileges := by
    rw [hkey]; exact hpriv
  simp [_get_user, Db.selectById, hsel, User.parse_obj, Db.hydrateRow, Except.map,
    hkey, hpriv2, hpriv]

/-- Claim C7. `updateUser` is a full replace: for an existing user id it replaces
name, description, userTagId, transportAccountId and cashierAccountId with
the supplied values and replaces the privilege set by
delete-all-then-reinsert, so the resulting stored privilege set equals
exactly the supplied set; for an absent id it fails NotFound. -/
theorem update_user_full_replace (db : Db) (user_id : Nat) (user : UserWithoutId) :
    (db.usr.find? (fun r => r.1 == user_id) = none →
      update_user db user_id user = .error (.notFound "user" (toString user_id)))
  ∧ (∀ u db2, update_user db user_id user = .ok (u, db2) →
      u.name = user.name ∧ u.description = user.description ∧
      u.user_tag_id = user.user_tag_id ∧
      u.transport_account_id = user.transport_account_id ∧
      u.cashier_account_id = user.cashier_account_id ∧
      u.privileges = user.privileges ∧
      db2.privilegesOf user_id = user.privileges) := by
  constructor
  · intro hnone
    rw [List.find?_eq_none] at hnone
    have hany : db.usr.any (fun r => r.1 == user_id) = false :=
      List.any_eq_false.mpr hnone
    simp [update_user, _update_user, hany]
  · intro u db2 h
    rw [update_user] at h
    cases hfind : db.usr.find? (fun x => x.1 == user_id) with
    | none =>
      rw [List.find?_eq_none] at hfind
      have hany : db.usr.any (fun r => r.1 == user_id) = false :=
        List.any_eq_false.mpr hfind
      rw [_update_user] at h
      simp [hany] at h
    | some r =>
      rw [_update_user_eq db user_id user hfind] at h
      simp only [Except.ok.injEq, Prod.mk.injEq] at h
      obtain ⟨hu, hdb⟩ := h
      subst hdb
      subst hu
      refine ⟨rfl, rfl, rfl, rfl, rfl, rfl, ?_⟩
      rw [dbAfterUpdate, Db.privilegesOf]
      exact privilegesOf_replace db.usr_privs user_id user.privileges

/-- Witness fixture for C7: one store with one user holding privileges A = admin and B = cashier. -/
def dbC7 : Db :=
  ⟨[(1, ⟨"alice", none, none, none, none, none⟩)],
    [(1, .admin), (1, .cashier)], [], [], [], 2, 1, 1⟩

/-- Witness payload for C7: full replace keeping only B = cashier. -/
def updC7 : UserWithoutId := ⟨"alice", none, [.cashier], none, none, none⟩

/-- Projection of an operation result: the returned user's privileges and
the privilege rows stored for a user id. -/
def okPrivsAndStored (e : Except ServiceError (User × Db)) (user_id : Nat) :
    Option (List Privilege × List Privilege) :=
  match e with
  | .ok (u, db) => some (u.privileges, db.privilegesOf user_id)
  | .error _ => none

/-- Witness piece for C7: applying the full-replace theorem to a user whose prior
privilege set is `{admin, cashier}` and a payload carrying only `{cashier}`
leaves exactly `{cashier}`; an absent id fails NotFound. -/
theorem update_user_full_replace_witness :
    (update_user dbC7 5 updC7 = .error (.notFound "user" "5")) ∧
    okPrivsAndStored (update_user dbC7 1 updC7) 1
      = some ([Privilege.cashier], [Privilege.cashier]) := by
  refine ⟨(update_user_full_replace dbC7 5 updC7).1 (by rfl), ?_⟩
  have hrun : update_user dbC7 1 updC7 = .ok
      (⟨1, "alice", none, [Privilege.cashier], none, none, none⟩,
        ⟨[(1, ⟨"alice", none, none, none, none, none⟩)],
          [(1, Privilege.cashier)], [], [], [], 2, 1, 1⟩) := rfl
  have h2 := (update_user_full_replace dbC7 1 updC7).2 _ _ hrun
  rw [okPrivsAndStored.eq_def, hrun]
  simp only [h2.2.2.2.2.2.2]
  rfl

/-- Claim C8. `deleteUser` returns true iff a user row with that id existed (and
removes every such row); it returns false, not an error, otherwise; after a
call that returned true, a subsequent `getUser` on that id fails NotFound. -/
theorem delete_user_spec (db : Db) (user_id : Nat) :
    ((delete_user db user_id).1 = true ↔ ∃ r ∈ db.usr, r.1 = user_id)
  ∧ ((delete_user db user_id).2.usr = db.usr.filter (fun r => !(r.1 == user_id)))
  ∧ ((delete_user db user_id).1 = true →
      get_user (delete_user db user_id).2 user_id
        = .error (.notFound "user" (toString user_id))) := by
  refine ⟨?_, rfl, ?_⟩
  · rw [delete_user]
    simp
  · intro _
    rw [get_user, _get_user]
    have hnone : (delete_user db user_id).2.usr.find? (fun r => r.1 == user_id) = none := by
      rw [delete_user, List.find?_eq_none]
      intro x hx
      have := List.of_mem_filter hx
      simpa using this
    rw [Db.selectById, hnone]
    rfl

/-- Witness piece for C8: deleting the only user returns true and the follow-up read
fails NotFound; deleting an absent id returns false. -/
theorem delete_user_spec_witness :
    ((delete_user dbC7 1).1 = true) ∧
    (get_user (delete_user dbC7 1).2 1 = .error (.notFound "user" "1")) ∧
    ((delete_user dbC7 9).1 = false) := by
  refine ⟨?_, ?_, by decide⟩
  · exact (delete_user_spec dbC7 1).1.mpr ⟨(1, ⟨"alice", none, none, none, none, none⟩),
      by decide, rfl⟩
  · exact (delete_user_spec dbC7 1).2.2 (by decide)

/-- Concrete hasher fixture: digest of `p` is `"#" ++ p`, verification
recomputes it. -/
def hasher0 : Hasher :=
  ⟨fun s => String.append "#" s, fun p d => d == String.append "#" p⟩

/-- Concrete auth-service fixture: only the token `"tok15"` decodes, to
user id 1 and session id 5. -/
def auth0 : AuthService :=
  ⟨fun m => toString m.user_id, fun t => if t = "tok15" then some ⟨1, 5⟩ else none⟩

/-- Claim C6. `logout` returns false when the token fails to decode and when the
decoded userId differs from currentUser.id, deleting no session row in
either case; otherwise it deletes the session rows matching
(userId, sessionId) and returns true iff such a row existed. -/
theorem logout_user_spec (auth : AuthService) (db : Db) (current_user : User)
    (token : String) :
    (auth.decode_user_jwt_payload token = none →
      logout_user auth db current_user token = (false, db))
  ∧ (∀ payload, auth.decode_user_jwt_payload token = some payload →
      current_user.id ≠ payload.user_id →
      logout_user auth db current_user token = (false, db))
  ∧ (∀ payload, auth.decode_user_jwt_payload token = some payload →
      current_user.id = payload.user_id →
      ((logout_user auth db current_user token).1 = true ↔
        ∃ s ∈ db.usr_session, s.2 = current_user.id ∧ s.1 = payload.session_id) ∧
      (logout_user auth db current_user token).2 =
        { db with usr_session := db.usr_session.filter (fun s =>
            !(s.2 == current_user.id && s.1 == payload.session_id)) }) := by
  refine ⟨fun h => by simp [logout_user, h], fun payload h hne => by simp [logout_user, h, hne],
    fun payload h heq => ?_⟩
  constructor
  · simp [logout_user, h, heq, List.any_eq_true]
  · simp [logout_user, h, heq]

/-- Witness fixture for C6: a session table with one session with id 5 owned by user 1. -/
def dbC6 : Db := ⟨[], [], [], [], [(5, 1)], 1, 1, 6⟩

/-- Witness piece for C6: principal owning session 5. -/
def userA : User := ⟨1, "alice", none, [], none, none, none⟩

/-- Witness piece for C6: principal who does not own session 5. -/
def userB : User := ⟨2, "bob", none, [], none, none, none⟩

/-- Witness piece for C6: an undecodable token and a token owned by another user both
return false and delete nothing; the owner's token deletes the session row
and returns true. -/
theorem logout_user_spec_witness :
    logout_user auth0 dbC6 userA "bad" = (false, dbC6) ∧
    logout_user auth0 dbC6 userB "tok15" = (false, dbC6) ∧
    (logout_user auth0 dbC6 userA "tok15").1 = true ∧
    (logout_user auth0 dbC6 userA "tok15").2 =
      { dbC6 with usr_session := [] } := by
  refine ⟨(logout_user_spec auth0 dbC6 userA "bad").1 (by rfl),
    (logout_user_spec auth0 dbC6 userB "tok15").2.1 ⟨1, 5⟩ (by rfl) (by decide), ?_, ?_⟩
  · exact ((logout_user_spec auth0 dbC6 userA "tok15").2.2 ⟨1, 5⟩ (by rfl) rfl).1.mpr
      ⟨(5, 1), by decide, rfl, rfl⟩
  · exact ((logout_user_spec auth0 dbC6 userA "tok15").2.2 ⟨1, 5⟩ (by rfl) rfl).2

/-- Claim C5 (amended). The two value-level failure paths of `login` are
indistinguishable: an unknown username and a failed verification against a
stored digest both return none with the state unchanged.  (A user without
a stored digest is a raised error instead — see the counterexample.) -/
theorem login_user_failure_indistinguishable (hasher : Hasher) (auth : AuthService)
    (db : Db) (username password : String) :
    (db.selectByName username = none →
      login_user hasher auth db username password = .ok (none, db))
  ∧ (∀ row digest, db.selectByName username = some row →
      row.password = some digest → hasher.verify password digest = false →
      login_user hasher auth db username password = .ok (none, db)) := by
  constructor
  · intro h
    simp [login_user, h]
  · intro row digest hrow hpw hv
    simp [login_user, hrow, hpw, hv]

/-- Counterexample fixture for C5: `bob` is a tag-only user, stored without any
password digest. -/
def dbC5 : Db :=
  ⟨[(1, ⟨"bob", none, none, some 3, none, none⟩)], [], [(3, 77)], [], [], 2, 1, 1⟩

/-- Counterexample piece for C5: logging in as a stored tag-only user does not return
none — the null digest reaches the hasher, which only accepts digest
strings, so the call raises instead of returning a value. -/
theorem login_user_tag_only_counterexample :
    login_user hasher0 auth0 dbC5 "bob" "pw" = .error ServiceError.invalidHash := by
  rfl

/-- Witness fixture for C5: `alice` has the digest of `"secret"`. -/
def dbC5b : Db :=
  ⟨[(1, ⟨"alice", none, some "#secret", none, none, none⟩)], [], [], [], [], 2, 1, 1⟩

/-- Witness piece for C5: an unknown username and a wrong password for a stored
digest both yield exactly `none` with the store unchanged. -/
theorem login_user_failure_indistinguishable_witness :
    login_user hasher0 auth0 dbC5b "nobody" "x" = .ok (none, dbC5b) ∧
    login_user hasher0 auth0 dbC5b "alice" "wrong" = .ok (none, dbC5b) := by
  refine ⟨(login_user_failure_indistinguishable hasher0 auth0 dbC5b "nobody" "x").1 (by rfl),
    (login_user_failure_indistinguishable hasher0 auth0 dbC5b "alice" "wrong").2
      ⟨1, "alice", none, some "#secret", none, none, none, []⟩ "#secret" (by rfl) rfl (by rfl)⟩

/-- Claim C9. An empty-string password is treated exactly like an absent
password: the call is the same function value, and the inserted `usr` row
stores a null password digest. -/
theorem create_user_empty_password (hasher : Hasher) (db : Db) (nu : UserWithoutId) :
    create_user_no_auth hasher db nu (some "") = create_user_no_auth hasher db nu none
  ∧ (∀ u db2, create_user_no_auth hasher db nu (some "") = .ok (u, db2) →
      db2.usr = db.usr ++ [(db.next_usr_id,
        ⟨nu.name, nu.description, none, nu.user_tag_id,
          nu.transport_account_id, nu.cashier_account_id⟩)]) := by
  refine ⟨rfl, ?_⟩
  intro u db2 h
  simp only [create_user_no_auth, _create_user] at h
  split at h
  · rw [Except.ok.injEq, Prod.mk.injEq] at h
    rw [← h.2]
    simp
  · exact absurd h (by simp)

/-- Witness piece for C9: creating a user with password `""` equals creating it with
no password, and the stored row has a null digest. -/
theorem create_user_empty_password_witness :
    create_user_no_auth hasher0 dbC6 updC7 (some "")
      = create_user_no_auth hasher0 dbC6 updC7 none ∧
    (create_user_no_auth hasher0 dbC6 updC7 (some "")).toOption.isSome = true ∧
    ((⟨[(1, ⟨"alice", none, none, none, none, none⟩)], [(1, Privilege.cashier)],
        [], [], [(5, 1)], 2, 1, 6⟩ : Db).usr
      = dbC6.usr ++ [(1, ⟨"alice", none, none, none, none, none⟩)]) := by
  refine ⟨(create_user_empty_password hasher0 dbC6 updC7).1, by rfl, ?_⟩
  exact (create_user_empty_password hasher0 dbC6 updC7).2
    ⟨1, "alice", none, [Privilege.cashier], none, none, none⟩
    ⟨[(1, ⟨"alice", none, none, none, none, none⟩)], [(1, Privilege.cashier)],
      [], [], [(5, 1)], 2, 1, 6⟩ (by rfl)

/-- The state `_create_user` leaves behind: the inserted `usr` row (digest
only for a truthy password), the inserted privilege rows, and the advanced
id sequence. -/
def dbAfterCreate (hasher : Hasher) (db : Db) (nu : UserWithoutId)
    (password : Option String) : Db :=
  { db with
    usr := db.usr ++ [(db.next_usr_id,
      ⟨nu.name, nu.description,
        (match password with
          | some p => if p = "" then none else some (hasher.hash p)
          | none => none),
        nu.user_tag_id, nu.transport_account_id, nu.cashier_account_id⟩)],
    usr_privs := db.usr_privs ++ nu.privileges.map (fun p => (db.next_usr_id, p)),
    next_usr_id := db.next_usr_id + 1 }

/-- Characterization of `_create_user` when the id sequence is fresh (as
any state reached through this service keeps it): the call succeeds and
returns the hydrated new user carrying exactly the supplied fields. -/
theorem _create_user_eq (hasher : Hasher) (db : Db) (nu : UserWithoutId)
    (password : Option String)
    (hu : ∀ r ∈ db.usr, r.1 ≠ db.next_usr_id)
    (hp : ∀ r ∈ db.usr_privs, r.1 ≠ db.next_usr_id) :
    _create_user hasher db nu password = .ok
      (⟨db.next_usr_id, nu.name, nu.description, nu.privileges, nu.user_tag_id,
        nu.transport_account_id, nu.cashier_account_id⟩,
       dbAfterCreate hasher db nu password) := by
  have h1 : db.usr.find? (fun r => r.1 == db.next_usr_id) = none :=
    List.find?_eq_none.mpr (fun x hx => by simpa using hu x hx)
  have h2 : db.usr_privs.filter (fun r => r.1 == db.next_usr_id) = [] :=
    List.filter_eq_nil_iff.mpr (fun x hx => by simpa using hp x hx)
  simp [_create_user, Db.selectById, List.find?_append, h1, Db.hydrateRow,
    User.parse_obj, Db.privilegesOf, List.filter_append, List.map_append, h2,
    filter_key_map_pair, dbAfterCreate]

/-- Claim C3. `createUserWithTag` is first-writer-wins idempotent: an
unknown tag uid fails NotFound("user_tag", ...); when a user is already
bound to the resolved tag id the call returns that user unchanged,
discarding the supplied name; when none is bound it creates a user with an
empty privilege set bound to the resolved tag id, and a repeated call with
the same tag uid but a different name returns the very same user (same id,
the first call's name) and leaves the state unchanged. -/
theorem create_user_with_tag_dedup (hasher : Hasher) (db : Db) (nu : NewUser) :
    (db.user_tag.find? (fun t => t.2 == nu.user_tag) = none →
      create_user_with_tag hasher db nu
        = .error (.notFound "user_tag" (toString nu.user_tag)))
  ∧ (∀ tg row, db.user_tag.find? (fun t => t.2 == nu.user_tag) = some tg →
      db.selectByTagId tg.1 = some row →
      create_user_with_tag hasher db nu = .ok (User.parse_obj row, db))
  ∧ (∀ tg, db.user_tag.find? (fun t => t.2 == nu.user_tag) = some tg →
      db.selectByTagId tg.1 = none →
      (∀ r ∈ db.usr, r.1 ≠ db.next_usr_id) →
      (∀ r ∈ db.usr_privs, r.1 ≠ db.next_usr_id) →
      ∀ u db2 name2, create_user_with_tag hasher db nu = .ok (u, db2) →
        u.id = db.next_usr_id ∧ u.name = nu.name ∧ u.privileges = [] ∧
        u.user_tag_id = some tg.1 ∧
        create_user_with_tag hasher db2 ⟨name2, nu.user_tag⟩ = .ok (u, db2)) := by
  refine ⟨fun h => by simp [create_user_with_tag, h], ?_, ?_⟩
  · intro tg row htg hrow
    simp [create_user_with_tag, htg, hrow]
  · intro tg htg hsel hu hp u db2 name2 h
    have hrun : create_user_with_tag hasher db nu = .ok
        (⟨db.next_usr_id, nu.name, none, [], some tg.1, none, none⟩,
          dbAfterCreate hasher db ⟨nu.name, none, [], some tg.1, none, none⟩ none) := by
      simp only [create_user_with_tag, htg, hsel]
      exact _create_user_eq hasher db ⟨nu.name, none, [], some tg.1, none, none⟩ none hu hp
    rw [hrun] at h
    rw [Except.ok.injEq, Prod.mk.injEq] at h
    obtain ⟨hu1, hdb1⟩ := h
    subst hdb1
    subst hu1
    refine ⟨rfl, rfl, rfl, rfl, ?_⟩
    have htg2 : (dbAfterCreate hasher db ⟨nu.name, none, [], some tg.1, none, none⟩
        none).user_tag.find? (fun t => t.2 == nu.user_tag) = some tg := by
      simpa [dbAfterCreate] using htg
    have hfindTag : db.usr.find? (fun x => x.2.user_tag_id == some tg.1) = none := by
      rw [Db.selectByTagId] at hsel
      exact Option.map_eq_none.mp hsel
    have hprivnil : (dbAfterCreate hasher db ⟨nu.name, none, [], some tg.1, none, none⟩
        none).privilegesOf db.next_usr_id = [] := by
      have h2 : db.usr_privs.filter (fun r => r.1 == db.next_usr_id) = [] :=
        List.filter_eq_nil_iff.mpr (fun x hx => by simpa using hp x hx)
      simp [dbAfterCreate, Db.privilegesOf, h2]
    have hsel2 : (dbAfterCreate hasher db ⟨nu.name, none, [], some tg.1, none, none⟩
        none).selectByTagId tg.1
        = some ⟨db.next_usr_id, nu.name, none, none, some tg.1, none, none, []⟩ := by
      simp [dbAfterCreate, Db.selectByTagId, List.find?_append, hfindTag,
        Db.hydrateRow]
      simpa [dbAfterCreate] using hprivnil
    simp [create_user_with_tag, htg2, hsel2, User.parse_obj]

/-- Witness store for C3: tag id 4 has uid 7, no user yet. -/
def dbC3 : Db := ⟨[], [], [(4, 7)], [], [], 1, 1, 1⟩

/-- Witness for C3: an unknown uid fails NotFound; creating via uid 7 makes
user 1 named "n1" with no privileges; re-calling with a different name
returns the same user unchanged; a store with a bound user returns the
bound user unchanged. -/
theorem create_user_with_tag_dedup_witness :
    create_user_with_tag hasher0 dbC3 ⟨"n1", 9⟩
      = .error (.notFound "user_tag" "9") ∧
    create_user_with_tag hasher0
      ⟨[(1, ⟨"n1", none, none, some 4, none, none⟩)], [], [(4, 7)], [], [], 2, 1, 1⟩
      ⟨"n2", 7⟩
      = .ok (⟨1, "n1", none, [], some 4, none, none⟩,
          ⟨[(1, ⟨"n1", none, none, some 4, none, none⟩)], [], [(4, 7)], [], [], 2, 1, 1⟩) ∧
    create_user_with_tag hasher0 dbC3 ⟨"n1", 7⟩
      = .ok (⟨1, "n1", none, [], some 4, none, none⟩,
          ⟨[(1, ⟨"n1", none, none, some 4, none, none⟩)], [], [(4, 7)], [], [], 2, 1, 1⟩) ∧
    create_user_with_tag hasher0
      ⟨[(1, ⟨"n1", none, none, some 4, none, none⟩)], [], [(4, 7)], [], [], 2, 1, 1⟩
      ⟨"n2", 7⟩
      = .ok (⟨1, "n1", none, [], some 4, none, none⟩,
          ⟨[(1, ⟨"n1", none, none, some 4, none, none⟩)], [], [(4, 7)], [], [], 2, 1, 1⟩) := by
  refine ⟨(create_user_with_tag_dedup hasher0 dbC3 ⟨"n1", 9⟩).1 (by rfl),
    (create_user_with_tag_dedup hasher0
        ⟨[(1, ⟨"n1", none, none, some 4, none, none⟩)], [], [(4, 7)], [], [], 2, 1, 1⟩
        ⟨"n2", 7⟩).2.1 (4, 7) ⟨1, "n1", none, none, some 4, none, none, []⟩
      (by rfl) (by rfl), ?_, ?_⟩
  · have h3 := (create_user_with_tag_dedup hasher0 dbC3 ⟨"n1", 7⟩).2.2 (4, 7)
      (by rfl) (by rfl) (by simp [dbC3]) (by simp [dbC3])
      ⟨1, "n1", none, [], some 4, none, none⟩
      ⟨[(1, ⟨"n1", none, none, some 4, none, none⟩)], [], [(4, 7)], [], [], 2, 1, 1⟩
      "n2" (by rfl)
    exact by rfl
  · have h3 := (create_user_with_tag_dedup hasher0 dbC3 ⟨"n1", 7⟩).2.2 (4, 7)
      (by rfl) (by rfl) (by simp [dbC3]) (by simp [dbC3])
      ⟨1, "n1", none, [], some 4, none, none⟩
      ⟨[(1, ⟨"n1", none, none, some 4, none, none⟩)], [], [(4, 7)], [], [], 2, 1, 1⟩
      "n2" (by rfl)
    exact h3.2.2.2.2

/-- Inversion of a successful view read by id: the underlying `usr` row. -/
theorem selectById_inv {db : Db} {user_id : Nat} {row : UsrWithPrivilegesRow}
    (h : db.selectById user_id = some row) :
    ∃ r, db.usr.find? (fun x => x.1 == user_id) = some r ∧ row = db.hydrateRow r := by
  rw [Db.selectById] at h
  cases hf : db.usr.find? (fun x => x.1 == user_id) with
  | none => rw [hf] at h; simp at h
  | some r =>
    rw [hf] at h
    simp only [Option.map_some', Option.some.injEq] at h
    exact ⟨r, rfl, h.symm⟩

/-- Reading back the updated user row after `_update_user`: all supplied
fields, the untouched stored password, and the replaced privilege list. -/
theorem selectById_dbAfterUpdate (db : Db) (user_id : Nat) (user : UserWithoutId)
    {r : Nat × UserRow} (hfind : db.usr.find? (fun x => x.1 == user_id) = some r) :
    (dbAfterUpdate db user_id user).selectById user_id = some
      ⟨user_id, user.name, user.description, r.2.password, user.user_tag_id,
        user.transport_account_id, user.cashier_account_id, user.privileges⟩ := by
  have hkey : r.1 = user_id := find?_key_of_eq hfind
  simp only [Db.selectById, dbAfterUpdate]
  rw [find?_map_update db.usr user_id (fun x => { x.2 with
    name := user.name, description := user.description,
    user_tag_id := user.user_tag_id,
    transport_account_id := user.transport_account_id,
    cashier_account_id := user.cashier_account_id })]
  rw [hfind]
  simp only [Option.map_some', Option.some.injEq]
  rw [Db.hydrateRow]
  simp only [Db.privilegesOf]
  simp [hkey, privilegesOf_replace, filter_key_map_pair, filter_key_filter_out]

/-- The account-table effect of `promote_to_cashier`: one internal cashier
account inserted, sequence advanced. -/
def dbAcctCashier (db : Db) (name : String) : Db :=
  { db with
    account := db.account ++ [(db.next_account_id, AccountType.internal.value,
      "Cashier account for " ++ name)],
    next_account_id := db.next_account_id + 1 }

/-- The `_update_user` payload `promote_to_cashier` persists. -/
def cashierPromoPayload (db : Db) (row : UsrWithPrivilegesRow) : UserWithoutId :=
  ⟨row.name, row.description, row.privileges ++ [Privilege.cashier],
    row.user_tag_id, row.transport_account_id, some db.next_account_id⟩

/-- The account-table effect of `promote_to_finanzorga`: one internal
transport account inserted, sequence advanced. -/
def dbAcctTransport (db : Db) (name : String) : Db :=
  { db with
    account := db.account ++ [(db.next_account_id, AccountType.internal.value,
      "Transport account for finanzorga " ++ name)],
    next_account_id := db.next_account_id + 1 }

/-- The `_update_user` payload `promote_to_finanzorga` persists. -/
def finanzorgaPromoPayload (db : Db) (row : UsrWithPrivilegesRow) : UserWithoutId :=
  ⟨row.name, row.description, row.privileges ++ [Privilege.finanzorga],
    row.user_tag_id, some db.next_account_id, row.cashier_account_id⟩

/-- `promote_to_cashier` on an absent user id raises NotFound. -/
theorem promote_to_cashier_absent {db : Db} {user_id : Nat}
    (h : db.selectById user_id = none) :
    promote_to_cashier db user_id = .error (.notFound "user" (toString user_id)) := by
  simp [promote_to_cashier, _get_user, h]

/-- `promote_to_cashier` on a user already holding `cashier` returns the
user unchanged and leaves the state untouched. -/
theorem promote_to_cashier_noop {db : Db} {user_id : Nat} {row : UsrWithPrivilegesRow}
    (hrow : db.selectById user_id = some row)
    (hmem : Privilege.cashier ∈ row.privileges) :
    promote_to_cashier db user_id = .ok (User.parse_obj row, db) := by
  simp [promote_to_cashier, _get_user, hrow, User.parse_obj, hmem]

/-- `promote_to_cashier` on a user not yet holding `cashier`: appends the
privilege, links the freshly created account, persists both together. -/
theorem promote_to_cashier_eq {db : Db} {user_id : Nat} {row : UsrWithPrivilegesRow}
    (hrow : db.selectById user_id = some row)
    (hnot : Privilege.cashier ∉ row.privileges) :
    promote_to_cashier db user_id = .ok
      (⟨user_id, row.name, row.description, row.privileges ++ [Privilege.cashier],
        row.user_tag_id, row.transport_account_id, some db.next_account_id⟩,
       dbAfterUpdate (dbAcctCashier db row.name) user_id (cashierPromoPayload db row)) := by
  obtain ⟨r, hfind, hroweq⟩ := selectById_inv hrow
  have hkey : r.1 = user_id := find?_key_of_eq hfind
  have hrowid : row.id = user_id := by
    rw [hroweq]
    simpa [Db.hydrateRow] using hkey
  simp only [promote_to_cashier, _get_user, hrow, User.parse_obj]
  rw [if_neg hnot]
  rw [hrowid]
  exact _update_user_eq (dbAcctCashier db row.name) user_id
    (cashierPromoPayload db row) hfind

/-- `promote_to_finanzorga` on an absent user id raises NotFound. -/
theorem promote_to_finanzorga_absent {db : Db} {user_id : Nat}
    (h : db.selectById user_id = none) :
    promote_to_finanzorga db user_id = .error (.notFound "user" (toString user_id)) := by
  simp [promote_to_finanzorga, _get_user, h]

/-- `promote_to_finanzorga` on a user already holding `finanzorga` returns
the user unchanged and leaves the state untouched. -/
theorem promote_to_finanzorga_noop {db : Db} {user_id : Nat} {row : UsrWithPrivilegesRow}
    (hrow : db.selectById user_id = some row)
    (hmem : Privilege.finanzorga ∈ row.privileges) :
    promote_to_finanzorga db user_id = .ok (User.parse_obj row, db) := by
  simp [promote_to_finanzorga, _get_user, hrow, User.parse_obj, hmem]

/-- `promote_to_finanzorga` on a user not yet holding `finanzorga`:
appends the privilege, links the fresh transport account, persists both. -/
theorem promote_to_finanzorga_eq {db : Db} {user_id : Nat} {row : UsrWithPrivilegesRow}
    (hrow : db.selectById user_id = some row)
    (hnot : Privilege.finanzorga ∉ row.privileges) :
    promote_to_finanzorga db user_id = .ok
      (⟨user_id, row.name, row.description, row.privileges ++ [Privilege.finanzorga],
        row.user_tag_id, some db.next_account_id, row.cashier_account_id⟩,
       dbAfterUpdate (dbAcctTransport db row.name) user_id
         (finanzorgaPromoPayload db row)) := by
  obtain ⟨r, hfind, hroweq⟩ := selectById_inv hrow
  have hkey : r.1 = user_id := find?_key_of_eq hfind
  have hrowid : row.id = user_id := by
    rw [hroweq]
    simpa [Db.hydrateRow] using hkey
  simp only [promote_to_finanzorga, _get_user, hrow, User.parse_obj]
  rw [if_neg hnot]
  rw [hrowid]
  exact _update_user_eq (dbAcctTransport db row.name) user_id
    (finanzorgaPromoPayload db row) hfind

/-- Claim C4. `promoteToCashier` is idempotent: an absent user id fails
NotFound; a user already holding `cashier` is returned unchanged with no
new account (the state is untouched); calling it twice on the same user
yields the same cashierAccountId both times, a privilege set containing
`cashier` exactly once, the same returned user, and no further state
change. -/
theorem promote_to_cashier_idempotent (db : Db) (user_id : Nat) :
    (db.selectById user_id = none →
      promote_to_cashier db user_id = .error (.notFound "user" (toString user_id)))
  ∧ (∀ row, db.selectById user_id = some row → Privilege.cashier ∈ row.privileges →
      promote_to_cashier db user_id = .ok (User.parse_obj row, db))
  ∧ (∀ row, db.selectById user_id = some row → row.privileges.Nodup →
      ∀ u1 db1 u2 db2,
        promote_to_cashier db user_id = .ok (u1, db1) →
        promote_to_cashier db1 user_id = .ok (u2, db2) →
        u1.cashier_account_id = u2.cashier_account_id ∧
        u2.privileges.count Privilege.cashier = 1 ∧
        u2 = u1 ∧ db2 = db1) := by
  refine ⟨fun h => promote_to_cashier_absent h,
    fun row hrow hmem => promote_to_cashier_noop hrow hmem, ?_⟩
  intro row hrow hnodup u1 db1 u2 db2 h1 h2
  by_cases hmem : Privilege.cashier ∈ row.privileges
  · rw [promote_to_cashier_noop hrow hmem] at h1
    rw [Except.ok.injEq, Prod.mk.injEq] at h1
    obtain ⟨hu1, hdb1⟩ := h1
    subst hdb1
    subst hu1
    rw [promote_to_cashier_noop hrow hmem] at h2
    rw [Except.ok.injEq, Prod.mk.injEq] at h2
    obtain ⟨hu2, hdb2⟩ := h2
    subst hdb2
    subst hu2
    refine ⟨rfl, ?_, rfl, rfl⟩
    simpa [User.parse_obj] using List.count_eq_one_of_mem hnodup hmem
  · obtain ⟨r, hfind, hroweq⟩ := selectById_inv hrow
    rw [promote_to_cashier_eq hrow hmem] at h1
    rw [Except.ok.injEq, Prod.mk.injEq] at h1
    obtain ⟨hu1, hdb1⟩ := h1
    subst hdb1
    subst hu1
    have hsel2 := selectById_dbAfterUpdate (dbAcctCashier db row.name) user_id
      (cashierPromoPayload db row) hfind
    rw [promote_to_cashier_noop hsel2 (by simp [cashierPromoPayload])] at h2
    rw [Except.ok.injEq, Prod.mk.injEq] at h2
    obtain ⟨hu2, hdb2⟩ := h2
    subst hdb2
    subst hu2
    refine ⟨by simp [User.parse_obj, cashierPromoPayload], ?_,
      by simp [User.parse_obj, cashierPromoPayload], rfl⟩
    simp [User.parse_obj, cashierPromoPayload, List.count_append,
      List.count_eq_zero_of_not_mem hmem]

/-- Witness store for the promotion claims: user 1 named pam, no
privileges, no accounts; account sequence at 7. -/
def dbC4 : Db := ⟨[(1, ⟨"pam", none, none, none, none, none⟩)], [], [], [], [], 2, 7, 1⟩

/-- The user returned by promoting pam to cashier. -/
def uC4 : User := ⟨1, "pam", none, [Privilege.cashier], none, none, some 7⟩

/-- The store after promoting pam to cashier. -/
def dbC4after : Db :=
  ⟨[(1, ⟨"pam", none, none, none, none, some 7⟩)], [(1, Privilege.cashier)], [],
    [(7, "internal", "Cashier account for pam")], [], 2, 8, 1⟩

/-- Witness for C4: an absent id fails NotFound; promoting pam again after
a first promotion returns her unchanged with the same account and a
privilege set holding `cashier` exactly once. -/
theorem promote_to_cashier_idempotent_witness :
    promote_to_cashier dbC4 9 = .error (.notFound "user" "9") ∧
    promote_to_cashier dbC4after 1 = .ok (uC4, dbC4after) ∧
    uC4.privileges.count Privilege.cashier = 1 := by
  refine ⟨(promote_to_cashier_idempotent dbC4 9).1 (by rfl), ?_, ?_⟩
  · exact (promote_to_cashier_idempotent dbC4after 1).2.1
      ⟨1, "pam", none, none, none, none, some 7, [Privilege.cashier]⟩
      (by rfl) (by decide)
  · have h3 := (promote_to_cashier_idempotent dbC4 1).2.2
      ⟨1, "pam", none, none, none, none, none, []⟩ (by rfl) (by decide)
      uC4 dbC4after uC4 dbC4after (by rfl) (by rfl)
    exact h3.2.2.1 ▸ h3.2.1

/-- Claim C1 (amended). `promote_to_cashier` establishes the privilege and
the account link atomically: when it grants `cashier`, the returned user
and the persisted row both carry the privilege together with the fresh
cashierAccountId.  (The unrestricted invariant is false: `create_user` and
`update_user` accept arbitrary privilege sets — see the counterexample.) -/
theorem promote_to_cashier_grants_atomically (db : Db) (user_id : Nat)
    (row : UsrWithPrivilegesRow)
    (hrow : db.selectById user_id = some row)
    (hnot : Privilege.cashier ∉ row.privileges) :
    ∀ u db2, promote_to_cashier db user_id = .ok (u, db2) →
      Privilege.cashier ∈ u.privileges ∧
      u.cashier_account_id = some db.next_account_id ∧
      ∃ row2, db2.selectById user_id = some row2 ∧
        Privilege.cashier ∈ row2.privileges ∧
        row2.cashier_account_id = some db.next_account_id := by
  intro u db2 h
  obtain ⟨r, hfind, hroweq⟩ := selectById_inv hrow
  rw [promote_to_cashier_eq hrow hnot] at h
  rw [Except.ok.injEq, Prod.mk.injEq] at h
  obtain ⟨hu, hdb⟩ := h
  subst hdb
  subst hu
  have hsel2 := selectById_dbAfterUpdate (dbAcctCashier db row.name) user_id
    (cashierPromoPayload db row) hfind
  exact ⟨by simp, rfl,
    ⟨_, hsel2, by simp [cashierPromoPayload], by simp [cashierPromoPayload]⟩⟩

/-- Projection of an operation result onto the returned user. -/
def okUser (e : Except ServiceError (User × Db)) : Option User :=
  match e with
  | .ok (u, _) => some u
  | .error _ => none

/-- The empty store. -/
def emptyDb : Db := ⟨[], [], [], [], [], 1, 1, 1⟩

/-- A creation payload carrying the `cashier` privilege but no account. -/
def cashierNoAcctPayload : UserWithoutId := ⟨"carol", none, [Privilege.cashier], none, none, none⟩

/-- Counterexample to C1 as stated: one public `create_user` call reaches a
state whose user holds the `cashier` privilege with no cashierAccountId. -/
theorem create_user_cashier_without_account_counterexample :
    (okUser (create_user hasher0 emptyDb cashierNoAcctPayload none)).map User.privileges
      = some [Privilege.cashier] ∧
    (okUser (create_user hasher0 emptyDb cashierNoAcctPayload none)).map User.cashier_account_id
      = some none :=
  ⟨rfl, rfl⟩

/-- Witness for C1 (amended): promoting pam grants `cashier` and links
account 7 in the same step, in the returned user and in the stored row. -/
theorem promote_to_cashier_grants_atomically_witness :
    Privilege.cashier ∈ uC4.privileges ∧ uC4.cashier_account_id = some 7 ∧
    dbC4after.selectById 1
      = some ⟨1, "pam", none, none, none, none, some 7, [Privilege.cashier]⟩ := by
  have h := promote_to_cashier_grants_atomically dbC4 1
    ⟨1, "pam", none, none, none, none, none, []⟩ (by rfl) (by decide)
    uC4 dbC4after (by rfl)
  exact ⟨h.1, h.2.1, by rfl⟩

/-- Claim C2 (amended). The promotion operations themselves are monotonic:
they never remove a privilege the user already holds, and each leaves the
other promotion's account link unchanged.  (The unrestricted claim is
false: `update_user` removes privileges and the `link_user_to_*`
operations reassign linked accounts — see the counterexample.) -/
theorem promotions_never_remove (db : Db) (user_id : Nat)
    (row : UsrWithPrivilegesRow)
    (hrow : db.selectById user_id = some row) :
    (∀ u db2, promote_to_cashier db user_id = .ok (u, db2) →
      (∀ p ∈ row.privileges, p ∈ u.privileges) ∧
      u.transport_account_id = row.transport_account_id)
  ∧ (∀ u db2, promote_to_finanzorga db user_id = .ok (u, db2) →
      (∀ p ∈ row.privileges, p ∈ u.privileges) ∧
      u.cashier_account_id = row.cashier_account_id) := by
  constructor
  · intro u db2 h
    by_cases hmem : Privilege.cashier ∈ row.privileges
    · rw [promote_to_cashier_noop hrow hmem] at h
      rw [Except.ok.injEq, Prod.mk.injEq] at h
      obtain ⟨hu, _⟩ := h
      subst hu
      exact ⟨fun p hp => by simpa [User.parse_obj] using hp, by simp [User.parse_obj]⟩
    · rw [promote_to_cashier_eq hrow hmem] at h
      rw [Except.ok.injEq, Prod.mk.injEq] at h
      obtain ⟨hu, _⟩ := h
      subst hu
      exact ⟨fun p hp => by simp [hp], rfl⟩
  · intro u db2 h
    by_cases hmem : Privilege.finanzorga ∈ row.privileges
    · rw [promote_to_finanzorga_noop hrow hmem] at h
      rw [Except.ok.injEq, Prod.mk.injEq] at h
      obtain ⟨hu, _⟩ := h
      subst hu
      exact ⟨fun p hp => by simpa [User.parse_obj] using hp, by simp [User.parse_obj]⟩
    · rw [promote_to_finanzorga_eq hrow hmem] at h
      rw [Except.ok.injEq, Prod.mk.injEq] at h
      obtain ⟨hu, _⟩ := h
      subst hu
      exact ⟨fun p hp => by simp [hp], rfl⟩

/-- Counterexample store for C2: user 1 holds `finanzorga` and cashier
account 9. -/
def dbC2 : Db :=
  ⟨[(1, ⟨"erin", none, none, none, none, some 9⟩)], [(1, Privilege.finanzorga)],
    [], [], [], 2, 10, 1⟩

/-- Counterexample to C2 as stated: the public `update_user` removes the
granted `finanzorga` privilege, and `link_user_to_cashier_account`
reassigns the already-set cashier account from 9 to 42. -/
theorem update_user_removes_privilege_counterexample :
    Privilege.finanzorga ∈ dbC2.privilegesOf 1 ∧
    okPrivsAndStored (update_user dbC2 1 ⟨"erin", none, [], none, none, some 9⟩) 1
      = some ([], []) ∧
    (link_user_to_cashier_account dbC2 1 42).2.usr
      = [(1, ⟨"erin", none, none, none, none, some 42⟩)] := by
  exact ⟨by decide, rfl, rfl⟩

/-- The user returned by promoting erin (a finanzorga) to cashier. -/
def uC2 : User := ⟨1, "erin", none, [Privilege.finanzorga, Privilege.cashier], none, none, some 10⟩

/-- The store after promoting erin to cashier. -/
def dbC2after : Db :=
  ⟨[(1, ⟨"erin", none, none, none, none, some 10⟩)],
    [(1, Privilege.finanzorga), (1, Privilege.cashier)], [],
    [(10, "internal", "Cashier account for erin")], [], 2, 11, 1⟩

/-- Witness for C2 (amended): promoting erin to cashier keeps her granted
`finanzorga` privilege and leaves her transport account unchanged. -/
theorem promotions_never_remove_witness :
    Privilege.finanzorga ∈ uC2.privileges ∧ uC2.transport_account_id = none := by
  have h := (promotions_never_remove dbC2 1
      ⟨1, "erin", none, none, none, none, some 9, [Privilege.finanzorga]⟩
      (by rfl)).1 uC2 dbC2after (by rfl)
  exact ⟨h.1 Privilege.finanzorga (by decide), h.2⟩

/-- Claim C10. `promote_to_finanzorga` by itself only sets
transportAccountId and appends `finanzorga`: name, description, userTagId,
cashierAccountId and all other privileges are unchanged; in particular it
neither grants `cashier` nor creates a cashier account (the only account
inserted is the transport one). -/
theorem promote_to_finanzorga_frame (db : Db) (user_id : Nat)
    (row : UsrWithPrivilegesRow)
    (hrow : db.selectById user_id = some row)
    (hnot : Privilege.finanzorga ∉ row.privileges) :
    ∀ u db2, promote_to_finanzorga db user_id = .ok (u, db2) →
      u.name = row.name ∧ u.description = row.description ∧
      u.user_tag_id = row.user_tag_id ∧
      u.cashier_account_id = row.cashier_account_id ∧
      u.transport_account_id = some db.next_account_id ∧
      u.privileges = row.privileges ++ [Privilege.finanzorga] ∧
      (Privilege.cashier ∈ u.privileges ↔ Privilege.cashier ∈ row.privileges) ∧
      db2.account = db.account ++ [(db.next_account_id, AccountType.internal.value,
        "Transport account for finanzorga " ++ row.name)] := by
  intro u db2 h
  rw [promote_to_finanzorga_eq hrow hnot] at h
  rw [Except.ok.injEq, Prod.mk.injEq] at h
  obtain ⟨hu, hdb⟩ := h
  subst hdb
  subst hu
  have hne : Privilege.cashier ≠ Privilege.finanzorga := by decide
  refine ⟨rfl, rfl, rfl, rfl, rfl, rfl, by simp [hne], ?_⟩
  simp [dbAfterUpdate, dbAcctTransport]

/-- The user returned by promoting pam to finanzorga. -/
def uC10 : User := ⟨1, "pam", none, [Privilege.finanzorga], none, some 7, none⟩

/-- Witness for C10: promoting pam to finanzorga leaves her name,
description, tag, cashier account and prior privileges unchanged, adds only
the transport account and the `finanzorga` privilege, and grants no
`cashier`. -/
theorem promote_to_finanzorga_frame_witness :
    uC10.name = "pam" ∧ uC10.cashier_account_id = none ∧
    uC10.transport_account_id = some 7 ∧
    uC10.privileges = [Privilege.finanzorga] ∧
    (Privilege.cashier ∈ uC10.privileges ↔ False) ∧
    (⟨[(1, ⟨"pam", none, none, none, some 7, none⟩)], [(1, Privilege.finanzorga)],
      [], [(7, "internal", "Transport account for finanzorga pam")], [], 2, 8, 1⟩ : Db).account
      = [(7, "internal", "Transport account for finanzorga pam")] := by
  have h := promote_to_finanzorga_frame dbC4 1
    ⟨1, "pam", none, none, none, none, none, []⟩ (by rfl) (by decide)
    uC10
    ⟨[(1, ⟨"pam", none, none, none, some 7, none⟩)], [(1, Privilege.finanzorga)],
      [], [(7, "internal", "Transport account for finanzorga pam")], [], 2, 8, 1⟩
    (by rfl)
  refine ⟨h.1, h.2.2.2.1, h.2.2.2.2.1, h.2.2.2.2.2.1, ?_, by rfl⟩
  rw [h.2.2.2.2.2.2.1]
  simp

end Stustapay
